import Mathlib

/-!
Verification of the Kubera pricing strategy engine.

This file gives a shallow embedding of the deterministic core of the
market-analysis module (metrics calculator, zone classifier, psychological
price rounder, rule-based recommendation generator) and proves or refutes
the frozen claims about it.  JavaScript numbers are modelled by `ℚ`; for
the degenerate empty-competitor-list path a small `JNum` model with
explicit NaN/undefined values is used.  Fallible field accesses on the
loosely typed customer-feedback payload are modelled with `Except`.
-/

namespace Kubera

/-- Pricing zone label, from the `PricingZone.zone` string union. -/
inductive Zone where
  | Overpriced
  | MarketAligned
  | Underpriced
deriving DecidableEq, Repr

/-- Zone severity, from the `PricingZone.severity` string union. -/
inductive Severity where
  | Critical
  | Moderate
  | Optimal
deriving DecidableEq, Repr

/-- Confidence rating, from the `confidence` string union. -/
inductive Confidence where
  | High
  | Medium
  | Low
deriving DecidableEq, Repr

/-- Recommendation category, from the `category` string union. -/
inductive Category where
  | Pricing
  | ValueAdd
  | Marketing
  | Urgency
  | Quality
  | Festival
deriving DecidableEq, Repr

/-- The `PricingMetrics` record computed by `calculatePricingMetrics`. -/
structure PricingMetrics where
  minMarketPrice : ℚ
  maxMarketPrice : ℚ
  medianMarketPrice : ℚ
  averageMarketPrice : ℚ
  priceSpreadPercent : ℚ
  merchantPrice : ℚ
  priceIndex : ℚ
  competitiveRank : ℕ
  totalRetailers : ℕ
  positionPercentile : ℚ
deriving DecidableEq, Repr

/-- The `PricingZone` record. -/
structure PricingZone where
  zone : Zone
  severity : Severity
  confidence : Confidence
deriving DecidableEq, Repr

/-- `applyPsychologicalPricing` from the source:
`const thousands = Math.floor(price / 1000); return thousands * 1000 + 999;`. -/
def applyPsychologicalPricing (price : ℚ) : ℚ :=
  let thousands : ℤ := ⌊price / 1000⌋
  (thousands : ℚ) * 1000 + 999

/-- First index of `x` in `l` (JS `Array.prototype.indexOf` on numbers;
returns `l.length` when absent, a case never exercised since the merchant
price is always a member of the searched list). -/
def indexOfQ : List ℚ → ℚ → ℕ
  | [], _ => 0
  | a :: l, x => if a = x then 0 else indexOfQ l x + 1

/-- Ascending sort used by the source (`[...prices].sort((a, b) => a - b)`).
JS sort is stable; on plain numbers stability is value-irrelevant, so the
insertion sort by `≤` is a faithful model. -/
def sortAsc (l : List ℚ) : List ℚ :=
  List.insertionSort (· ≤ ·) l

/-- `calculatePricingMetrics` from the source (part_002 lines 173-209,
identical in part_001).  Translated clause by clause; list indexing uses
`getD` with default `0`, which coincides with JS indexing whenever the
index is in range (always the case for a non-empty competitor list). -/
def calculatePricingMetrics (prices : List ℚ) (merchantPrice : ℚ) : PricingMetrics :=
  let sortedPrices := sortAsc prices
  let minP := sortedPrices.getD 0 0
  let maxP := sortedPrices.getD (sortedPrices.length - 1) 0
  let medianP :=
    if sortedPrices.length % 2 = 0 then
      (sortedPrices.getD (sortedPrices.length / 2 - 1) 0 +
        sortedPrices.getD (sortedPrices.length / 2) 0) / 2
    else
      sortedPrices.getD (sortedPrices.length / 2) 0
  let average := (prices.foldl (· + ·) 0) / (prices.length : ℚ)
  let priceSpread := ((maxP - minP) / medianP) * 100
  let priceIdx := (merchantPrice / medianP) * 100
  let allPrices := sortAsc (prices ++ [merchantPrice])
  let rank := indexOfQ allPrices merchantPrice + 1
  let positionPercentile := ((rank : ℚ) / (allPrices.length : ℚ)) * 100
  { minMarketPrice := minP
    maxMarketPrice := maxP
    medianMarketPrice := medianP
    averageMarketPrice := average
    priceSpreadPercent := priceSpread
    merchantPrice := merchantPrice
    priceIndex := priceIdx
    competitiveRank := rank
    totalRetailers := allPrices.length
    positionPercentile := positionPercentile }

/-- Shared confidence computation of both `determinePricingZone`
implementations. -/
def zoneConfidence (metrics : PricingMetrics) : Confidence :=
  if 6 ≤ metrics.totalRetailers ∧ metrics.priceSpreadPercent < 10 then
    Confidence.High
  else if metrics.totalRetailers ≤ 3 ∨ 20 < metrics.priceSpreadPercent then
    Confidence.Low
  else
    Confidence.Medium

/-- `determinePricingZone` from part_002 (lines 211-241): flat
`>108`, `95..108`, `<95` split with `>130` and `<50` severity cutoffs. -/
def determinePricingZone (metrics : PricingMetrics) : PricingZone :=
  let confidence := zoneConfidence metrics
  if 108 < metrics.priceIndex then
    { zone := Zone.Overpriced
      severity := if 130 < metrics.priceIndex then Severity.Critical else Severity.Moderate
      confidence := confidence }
  else if 95 ≤ metrics.priceIndex ∧ metrics.priceIndex ≤ 108 then
    { zone := Zone.MarketAligned
      severity := Severity.Optimal
      confidence := confidence }
  else
    { zone := Zone.Underpriced
      severity := if metrics.priceIndex < 50 then Severity.Critical else Severity.Moderate
      confidence := confidence }

/-- `determinePricingZone` from part_001 (lines 212-244), the older
duplicate imported by the CLI entry point: rank-aware Overpriced test
`priceIndex > 108 AND positionPercentile > 75`, `>115` critical split,
`<90` Underpriced critical split. -/
def determinePricingZoneV1 (metrics : PricingMetrics) : PricingZone :=
  let confidence := zoneConfidence metrics
  if 108 < metrics.priceIndex ∧ 75 < metrics.positionPercentile then
    { zone := Zone.Overpriced
      severity := if 115 < metrics.priceIndex then Severity.Critical else Severity.Moderate
      confidence := confidence }
  else if 95 ≤ metrics.priceIndex ∧ metrics.priceIndex ≤ 108 then
    { zone := Zone.MarketAligned
      severity := Severity.Optimal
      confidence := confidence }
  else
    { zone := Zone.Underpriced
      severity := if metrics.priceIndex < 90 then Severity.Critical else Severity.Moderate
      confidence := confidence }

/-- JS truncating conversion used by the `%` operator (`trunc(a/b)`). -/
def jsTrunc (q : ℚ) : ℤ :=
  if 0 ≤ q then ⌊q⌋ else ⌈q⌉

/-- JS remainder operator on numbers: `a % b = a - b * trunc(a / b)`. -/
def jsMod (a b : ℚ) : ℚ :=
  a - b * (jsTrunc (a / b) : ℚ)

/-- The round-price test of the psychological-pricing universal rule:
`merchantPrice % 1000 === 0 || merchantPrice % 100 === 0`. -/
def isRoundPrice (m : ℚ) : Prop :=
  jsMod m 1000 = 0 ∨ jsMod m 100 = 0

instance (m : ℚ) : Decidable (isRoundPrice m) := by
  unfold isRoundPrice
  infer_instance

/-- Rendering of a number into a display string (JS `toLocaleString` /
`toFixed`).  The exact digit formatting is presentation-only and never
inspected by any claim, so `toString` on `ℚ` stands in for it. -/
def fmtQ (q : ℚ) : String :=
  toString q

/-- JS `arr[i] || dflt`: the element when present and truthy, otherwise the
fallback literal (an out-of-range access or an empty string both select the
fallback, as `undefined` and `""` are falsy). -/
def jsGetOr (l : List String) (i : ℕ) (d : String) : String :=
  match l.get? i with
  | some s => if s = "" then d else s
  | none => d

/-- Fields of `generalOpinion` read by the recommendation generator.
Array-typed fields are `Option`s: the payload is parsed from LLM output
and only the top-level shape is validated upstream, so an array field can
be dynamically absent (`none`). -/
structure CustomerOpinion where
  overallSentiment : String
  strengths : Option (List String)
  commonComplaints : Option (List String)
  targetAudience : String
deriving DecidableEq, Repr

/-- Fields of `customerNeeds` read by the recommendation generator. -/
structure CustomerNeeds where
  missingFeatures : Option (List String)
  dealBreakers : Option (List String)
deriving DecidableEq, Repr

/-- The nested `marketAnalysis` object of the feedback payload. -/
structure MarketAnalysisPayload where
  generalOpinion : CustomerOpinion
  customerNeeds : CustomerNeeds
deriving DecidableEq, Repr

/-- The customer-feedback payload, restricted to the fields the
recommendation generator dereferences. -/
structure CustomerFeedbackResponse where
  marketAnalysis : MarketAnalysisPayload
deriving DecidableEq, Repr

/-- The `rule` tag attached to every recommendation object in the source,
modelled as an enumeration of the string literals that occur. -/
inductive RuleTag where
  | OVERPRICED_SEVERE
  | OVERPRICED_MODERATE
  | OVERPRICED_MINOR
  | OVERPRICED_VALUE_BUNDLE
  | OVERPRICED_URGENCY
  | ALIGNED_HOLD_OPTIMIZE
  | ALIGNED_VISIBILITY
  | UNDERPRICED_SEVERE
  | UNDERPRICED_MODERATE
  | UNDERPRICED_MINOR
  | UNDERPRICED_VOLUME
  | UNIVERSAL_DEALBREAKERS
  | UNIVERSAL_STRENGTHS
  | UNIVERSAL_SERVICE
  | PSYCHOLOGICAL_PRICING
deriving DecidableEq, Repr

/-- The `psychologicalPriceSuggestion` side payload of the round-price
universal rule. -/
structure PsychologicalPriceSuggestion where
  currentPrice : ℚ
  suggestedPrice : ℚ
  savingsPerception : ℚ
deriving DecidableEq, Repr

/-- A raw recommendation record as pushed by
`generateRuleBasedRecommendations`.  `targets` exposes the local
`targetPriceLow`/`targetPriceHigh` pair that the source interpolates into
the `action` string, so that theorems can speak about the numeric range;
it is `some` exactly on the primary pricing recommendations that compute
such a pair. -/
structure ActionableRecommendation where
  priority : ℕ
  action : String
  category : Category
  confidence : Confidence
  rule : RuleTag
  reasoning : List String
  expectedImpact : String
  targets : Option (ℚ × ℚ)
  psychologicalPriceSuggestion : Option PsychologicalPriceSuggestion
deriving DecidableEq, Repr

/-- The Overpriced zone branch of `generateRuleBasedRecommendations`
(part_002 lines 253-352): a tiered primary pricing recommendation, an
always-added value bundle, and an urgency suggestion when
`priceIndex <= 130`. -/
def overpricedRecs (metrics : PricingMetrics) (zone : PricingZone)
    (cf : CustomerFeedbackResponse) (priceDiff : ℚ) (priceDiffPercent : String) :
    List ActionableRecommendation :=
  let primary :=
    if 130 < metrics.priceIndex then
      let medianPsychological := (⌊metrics.medianMarketPrice / 1000⌋ : ℚ) * 1000 - 1
      let medianSlightlyAbove := (⌊metrics.medianMarketPrice / 1000⌋ : ℚ) * 1000 + 999
      { priority := 1
        action := "Reduce price to ₹" ++ fmtQ medianPsychological ++ " - ₹" ++
          fmtQ medianSlightlyAbove ++ " (psychological pricing at market level)"
        category := Category.Pricing
        confidence := Confidence.High
        rule := RuleTag.OVERPRICED_SEVERE
        reasoning := [
          "Price Index of " ++ fmtQ metrics.priceIndex ++ " means you are " ++
            priceDiffPercent ++ "% above market median (₹" ++
            fmtQ metrics.medianMarketPrice ++ "), losing sales to competitors daily.",
          "Psychological pricing at ₹" ++ fmtQ medianPsychological ++
            " appears significantly cheaper while matching market expectations.",
          "Market range ₹" ++ fmtQ metrics.minMarketPrice ++ "-₹" ++
            fmtQ metrics.maxMarketPrice ++
            " shows retailers compete here; pricing at median captures maximum volume."]
        expectedImpact := "Significant conversion improvement and market competitiveness"
        targets := some (medianPsychological, medianSlightlyAbove)
        psychologicalPriceSuggestion := none }
    else if 115 < metrics.priceIndex then
      let gapToClose := priceDiff * 0.65
      let rawLow := metrics.merchantPrice - gapToClose * 1.1
      let rawHigh := metrics.merchantPrice - gapToClose * 0.9
      let targetPriceLow := applyPsychologicalPricing rawLow
      let targetPriceHigh := applyPsychologicalPricing rawHigh
      { priority := 1
        action := "Reduce price to ₹" ++ fmtQ targetPriceLow ++ " - ₹" ++ fmtQ targetPriceHigh
        category := Category.Pricing
        confidence := zone.confidence
        rule := RuleTag.OVERPRICED_MODERATE
        reasoning := [
          "Price " ++ priceDiffPercent ++ "% above market median reduces conversion and visibility.",
          "Competitors at ₹" ++ fmtQ metrics.medianMarketPrice ++
            " are capturing price-sensitive " ++
            cf.marketAnalysis.generalOpinion.targetAudience.toLower ++ ".",
          "Current rank " ++ toString metrics.competitiveRank ++ " of " ++
            toString metrics.totalRetailers ++
            " indicates poor competitive position requiring adjustment."]
        expectedImpact := "Higher conversion rates and better market visibility"
        targets := some (targetPriceLow, targetPriceHigh)
        psychologicalPriceSuggestion := none }
    else
      let suggestedReduction := priceDiff * 0.6
      let rawLow := metrics.merchantPrice - suggestedReduction
      let rawHigh := metrics.merchantPrice - suggestedReduction * 0.8
      let targetLow := applyPsychologicalPricing rawLow
      let targetHigh := applyPsychologicalPricing rawHigh
      { priority := 1
        action := "Reduce price to ₹" ++ fmtQ targetLow ++ " - ₹" ++ fmtQ targetHigh
        category := Category.Pricing
        confidence := zone.confidence
        rule := RuleTag.OVERPRICED_MINOR
        reasoning := [
          "Priced " ++ priceDiffPercent ++ "% above median, minor reduction improves competitiveness.",
          "Market stability (spread: " ++ fmtQ metrics.priceSpreadPercent ++
            "%) allows strategic price adjustment.",
          "Aligning closer to market average of ₹" ++ fmtQ metrics.medianMarketPrice ++
            " enhances conversion without sacrificing quality perception."]
        expectedImpact := "Improved conversion without compromising brand positioning"
        targets := some (targetLow, targetHigh)
        psychologicalPriceSuggestion := none }
  let bundle : ActionableRecommendation :=
    { priority := 2
      action := "Add value bundle instead of price cut"
      category := Category.ValueAdd
      confidence := Confidence.Medium
      rule := RuleTag.OVERPRICED_VALUE_BUNDLE
      reasoning := [
        "Bundling protects margins while enhancing perceived value for " ++
          cf.marketAnalysis.generalOpinion.targetAudience.toLower ++ ".",
        "Bank discounts or free accessories effectively lower cost, attracting price-sensitive customers.",
        "Addresses customer motivator for an affordable price point without direct price reduction."]
      expectedImpact := "Maintains margin while improving attractiveness"
      targets := none
      psychologicalPriceSuggestion := none }
  let urgency : List ActionableRecommendation :=
    if metrics.priceIndex ≤ 130 then
      [{ priority := 3
         action := "Create urgency with flash sale or limited stock"
         category := Category.Urgency
         confidence := Confidence.High
         rule := RuleTag.OVERPRICED_URGENCY
         reasoning := [
           "Time-limited flash sales can overcome price resistance for an overpriced product.",
           "Scarcity drives faster purchase decisions, converting " ++
             cf.marketAnalysis.generalOpinion.targetAudience.toLower ++ " quickly.",
           cf.marketAnalysis.generalOpinion.overallSentiment ++
             " customer sentiment could be leveraged to boost quick sales during urgency events."]
         expectedImpact := "Faster decisions, reduced comparison shopping"
         targets := none
         psychologicalPriceSuggestion := none }]
    else []
  primary :: bundle :: urgency

/-- The Market-Aligned zone branch (part_002 lines 354-380): exactly two
fixed recommendations.  The second interpolates the first two
`commonComplaints`, which the caller has dereferenced. -/
def alignedRecs (metrics : PricingMetrics) (zone : PricingZone)
    (commonComplaints : List String) : List ActionableRecommendation :=
  [{ priority := 1
     action := "Hold current price - focus on conversion optimization"
     category := Category.Marketing
     confidence := zone.confidence
     rule := RuleTag.ALIGNED_HOLD_OPTIMIZE
     reasoning := [
       "Price index " ++ fmtQ metrics.priceIndex ++ " is in optimal range (95-108)",
       "Focus on non-price factors to drive sales"]
     expectedImpact := "Maintain margin while improving visibility"
     targets := none
     psychologicalPriceSuggestion := none },
   { priority := 2
     action := "Improve product listing quality and visibility"
     category := Category.Marketing
     confidence := Confidence.High
     rule := RuleTag.ALIGNED_VISIBILITY
     reasoning := [
       "Better images and descriptions improve conversion",
       "Address concerns: " ++ String.intercalate ", " (commonComplaints.take 2)]
     expectedImpact := "Higher conversion without margin loss"
     targets := none
     psychologicalPriceSuggestion := none }]

/-- The Underpriced zone branch (part_002 lines 382-468): a tiered primary
pricing recommendation, plus a volume suggestion only when
`priceIndex >= 50`. -/
def underpricedRecs (metrics : PricingMetrics) (zone : PricingZone)
    (cf : CustomerFeedbackResponse) : List ActionableRecommendation :=
  let priceDiffFromMedian := metrics.medianMarketPrice - metrics.merchantPrice
  let primary :=
    if metrics.priceIndex < 50 then
      let medianPsychological := (⌊metrics.medianMarketPrice / 1000⌋ : ℚ) * 1000 - 1
      let medianSlightlyAbove := (⌊metrics.medianMarketPrice / 1000⌋ : ℚ) * 1000 + 999
      { priority := 1
        action := "Increase price to ₹" ++ fmtQ medianPsychological ++ " - ₹" ++
          fmtQ medianSlightlyAbove ++ " (psychological pricing at market level)"
        category := Category.Pricing
        confidence := Confidence.High
        rule := RuleTag.UNDERPRICED_SEVERE
        reasoning := [
          "Price Index of " ++ fmtQ metrics.priceIndex ++
            " means severe underpricing; you are losing ₹" ++
            fmtQ priceDiffFromMedian ++ " per sale.",
          "Psychological pricing at ₹" ++ fmtQ medianPsychological ++
            " captures market value while appearing more attractive.",
          "Market median ₹" ++ fmtQ metrics.medianMarketPrice ++
            " shows customers willing to pay this; capture full margin without losing competitiveness."]
        expectedImpact := "Significantly improved margins while maintaining competitive position"
        targets := some (medianPsychological, medianSlightlyAbove)
        psychologicalPriceSuggestion := none }
    else if metrics.priceIndex < 90 then
      let gapToClose := priceDiffFromMedian * 0.6
      let rawLow := metrics.merchantPrice + gapToClose * 0.8
      let rawHigh := metrics.merchantPrice + gapToClose * 1.2
      let targetPriceLow := applyPsychologicalPricing rawLow
      let targetPriceHigh := applyPsychologicalPricing rawHigh
      { priority := 1
        action := "Increase price to ₹" ++ fmtQ targetPriceLow ++ " - ₹" ++ fmtQ targetPriceHigh
        category := Category.Pricing
        confidence := zone.confidence
        rule := RuleTag.UNDERPRICED_MODERATE
        reasoning := [
          "Price below market median leaves margin on the table.",
          "Competitors charging ₹" ++ fmtQ metrics.medianMarketPrice ++
            " indicates market acceptance of higher price.",
          "Current rank " ++ toString metrics.competitiveRank ++ " of " ++
            toString metrics.totalRetailers ++ " provides room for strategic price increase."]
        expectedImpact := "Improved margin while remaining competitive"
        targets := some (targetPriceLow, targetPriceHigh)
        psychologicalPriceSuggestion := none }
    else
      let suggestedIncrease := priceDiffFromMedian * 0.5
      let rawLow := metrics.merchantPrice + suggestedIncrease
      let rawHigh := metrics.merchantPrice + suggestedIncrease * 1.3
      let targetLow := applyPsychologicalPricing rawLow
      let targetHigh := applyPsychologicalPricing rawHigh
      { priority := 1
        action := "Increase price to ₹" ++ fmtQ targetLow ++ " - ₹" ++ fmtQ targetHigh
        category := Category.Pricing
        confidence := zone.confidence
        rule := RuleTag.UNDERPRICED_MINOR
        reasoning := [
          "Priced below median, minor adjustment optimizes revenue.",
          "Market stability (spread: " ++ fmtQ metrics.priceSpreadPercent ++
            "%) supports incremental price increase.",
          "Maintaining competitive position while capturing available margin."]
        expectedImpact := "Optimized margin without affecting conversion"
        targets := some (targetLow, targetHigh)
        psychologicalPriceSuggestion := none }
  let volume : List ActionableRecommendation :=
    if 50 ≤ metrics.priceIndex then
      [{ priority := 2
         action := "Maintain low price and focus on volume"
         category := Category.Marketing
         confidence := Confidence.Medium
         rule := RuleTag.UNDERPRICED_VOLUME
         reasoning := [
           "Low price maintains competitive rank " ++ toString metrics.competitiveRank ++
             ", attracting price-sensitive " ++
             cf.marketAnalysis.generalOpinion.targetAudience.toLower ++ ".",
           cf.marketAnalysis.generalOpinion.overallSentiment ++
             " customer sentiment can be leveraged for high volume sales.",
           "Builds strong brand loyalty among target audience before competitors emerge."]
         expectedImpact := "Market share growth, customer acquisition"
         targets := none
         psychologicalPriceSuggestion := none }]
    else []
  primary :: volume

/-- The deal-breakers universal rule (part_002 lines 471-488), built after
the guard `dealBreakers.length > 0` has passed and `missingFeatures` has
been dereferenced. -/
def dealBreakersRec (cf : CustomerFeedbackResponse)
    (dealBreakers missingFeatures : List String) : ActionableRecommendation :=
  let dealBreaker := dealBreakers.getD 0 ""
  let missingFeature := jsGetOr missingFeatures 0 "ergonomic improvements"
  { priority := 3
    action := "Address critical customer concerns"
    category := Category.Quality
    confidence := Confidence.High
    rule := RuleTag.UNIVERSAL_DEALBREAKERS
    reasoning := [
      "Customer feedback highlights " ++ dealBreaker.toLower ++ ", specifically " ++
        missingFeature.toLower ++ ", as a key concern.",
      "Addressing this critical design flaw removes a significant purchase barrier for " ++
        cf.marketAnalysis.generalOpinion.targetAudience.toLower ++ ".",
      "Improved " ++ missingFeature.toLower ++ " enhances ergonomic support, appealing to " ++
        cf.marketAnalysis.generalOpinion.targetAudience.toLower ++ "."]
    expectedImpact := "Removes purchase barriers, improves satisfaction"
    targets := none
    psychologicalPriceSuggestion := none }

/-- The strengths universal rule (part_002 lines 490-507). -/
def strengthsRec (strengths : List String) : ActionableRecommendation :=
  let topStrength := strengths.getD 0 ""
  let secondStrength := jsGetOr strengths 1 "quality construction"
  { priority := 4
    action := "Highlight product strengths in marketing"
    category := Category.Marketing
    confidence := Confidence.High
    rule := RuleTag.UNIVERSAL_STRENGTHS
    reasoning := [
      "Customers highly praise " ++ topStrength.toLower ++ " and " ++ secondStrength.toLower ++ ".",
      "Marketing should emphasize ergonomic benefits and " ++ secondStrength.toLower ++
        " for durability.",
      "Highlighting proven strengths directly addresses customer motivators and reduces price sensitivity."]
    expectedImpact := "Better positioning, reduced price sensitivity"
    targets := none
    psychologicalPriceSuggestion := none }

/-- The always-added service universal rule (part_002 lines 509-521). -/
def serviceRec (cf : CustomerFeedbackResponse) : ActionableRecommendation :=
  { priority := 5
    action := "Offer superior service or faster delivery"
    category := Category.ValueAdd
    confidence := Confidence.Medium
    rule := RuleTag.UNIVERSAL_SERVICE
    reasoning := [
      "Superior service enhances " ++
        cf.marketAnalysis.generalOpinion.overallSentiment.toLower ++
        " customer sentiment, fostering brand advocacy.",
      "Faster delivery meets expectations of " ++
        cf.marketAnalysis.generalOpinion.targetAudience.toLower ++ ".",
      "Value-added services can differentiate product beyond just price for target audience."]
    expectedImpact := "Differentiation, repeat customers"
    targets := none
    psychologicalPriceSuggestion := none }

/-- The round-price psychological-pricing universal rule (part_002 lines
523-546), built after the `isRoundPrice` guard has passed. -/
def psychologicalRec (metrics : PricingMetrics) (cf : CustomerFeedbackResponse) :
    ActionableRecommendation :=
  let psychologicalPrice := applyPsychologicalPricing metrics.merchantPrice
  let savingsPerception := metrics.merchantPrice - psychologicalPrice
  { priority := 6
    action := "Use psychological pricing: ₹" ++ fmtQ psychologicalPrice ++
      " instead of ₹" ++ fmtQ metrics.merchantPrice
    category := Category.Pricing
    confidence := Confidence.High
    rule := RuleTag.PSYCHOLOGICAL_PRICING
    reasoning := [
      "₹" ++ fmtQ psychologicalPrice ++ " appears significantly cheaper than ₹" ++
        fmtQ metrics.merchantPrice ++ " despite only ₹" ++ fmtQ savingsPerception ++ " difference.",
      "Round numbers like ₹" ++ fmtQ metrics.merchantPrice ++
        " trigger rational thinking; charm pricing triggers emotional buying decisions.",
      "Research shows prices ending in 9 increase conversion by 8-12% for " ++
        cf.marketAnalysis.generalOpinion.targetAudience.toLower ++ "."]
    expectedImpact := "8-12% conversion improvement without margin loss"
    targets := none
    psychologicalPriceSuggestion :=
      some { currentPrice := metrics.merchantPrice
             suggestedPrice := psychologicalPrice
             savingsPerception := savingsPerception } }

/-- The auxiliary `metrics` block returned alongside the raw
recommendations. -/
structure RuleBasedMetrics where
  priceIndex : ℚ
  rank : String
  priceDiff : ℚ
  priceDiffPercent : String
deriving DecidableEq, Repr

/-- The return value of `generateRuleBasedRecommendations`. -/
structure RuleBasedData where
  rawRecommendations : List ActionableRecommendation
  metrics : RuleBasedMetrics
deriving DecidableEq, Repr

/-- Dereferencing a possibly-missing array field: JS throws a `TypeError`
when reading a property (`.length`, `[0]`, `.slice`) of `undefined`. -/
def getArr : Option (List String) → Except String (List String)
  | some l => Except.ok l
  | none => Except.error "TypeError: cannot read properties of undefined"

/-- `generateRuleBasedRecommendations` from part_002 (lines 243-557): the
zone dispatch followed by the universal rules, in push order.  Every
dereference of an array field of the feedback payload goes through
`getArr`, at the evaluation point where the source performs it; a missing
field therefore surfaces as `Except.error`, as the thrown `TypeError`
does in JS. -/
def generateRuleBasedRecommendations (metrics : PricingMetrics) (zone : PricingZone)
    (cf : CustomerFeedbackResponse) : Except String RuleBasedData := do
  let priceDiff := metrics.merchantPrice - metrics.medianMarketPrice
  let priceDiffPercent := fmtQ ((priceDiff / metrics.medianMarketPrice) * 100)
  let zoneList ←
    match zone.zone with
    | Zone.Overpriced => pure (overpricedRecs metrics zone cf priceDiff priceDiffPercent)
    | Zone.MarketAligned => do
        let complaints ← getArr cf.marketAnalysis.generalOpinion.commonComplaints
        pure (alignedRecs metrics zone complaints)
    | Zone.Underpriced => pure (underpricedRecs metrics zone cf)
  let dealBreakers ← getArr cf.marketAnalysis.customerNeeds.dealBreakers
  let dbList ←
    if 0 < dealBreakers.length then do
      let missingFeatures ← getArr cf.marketAnalysis.customerNeeds.missingFeatures
      pure [dealBreakersRec cf dealBreakers missingFeatures]
    else
      pure []
  let strengths ← getArr cf.marketAnalysis.generalOpinion.strengths
  let stList := if 0 < strengths.length then [strengthsRec strengths] else []
  let psychList :=
    if isRoundPrice metrics.merchantPrice then [psychologicalRec metrics cf] else []
  pure { rawRecommendations := zoneList ++ dbList ++ stList ++ [serviceRec cf] ++ psychList
         metrics := { priceIndex := metrics.priceIndex
                      rank := toString metrics.competitiveRank ++ " of " ++
                        toString metrics.totalRetailers
                      priceDiff := priceDiff
                      priceDiffPercent := priceDiffPercent } }

/-- Rule tags pushed by the zone-specific branches. -/
def isZoneRule : RuleTag → Bool
  | RuleTag.OVERPRICED_SEVERE => true
  | RuleTag.OVERPRICED_MODERATE => true
  | RuleTag.OVERPRICED_MINOR => true
  | RuleTag.OVERPRICED_VALUE_BUNDLE => true
  | RuleTag.OVERPRICED_URGENCY => true
  | RuleTag.ALIGNED_HOLD_OPTIMIZE => true
  | RuleTag.ALIGNED_VISIBILITY => true
  | RuleTag.UNDERPRICED_SEVERE => true
  | RuleTag.UNDERPRICED_MODERATE => true
  | RuleTag.UNDERPRICED_MINOR => true
  | RuleTag.UNDERPRICED_VOLUME => true
  | _ => false

/-- Number of recommendations contributed by the zone-specific branch. -/
def zoneRuleCount (l : List ActionableRecommendation) : ℕ :=
  (l.filter (fun r => isZoneRule r.rule)).length

/-- Number of recommendations contributed by the universal rules. -/
def univRuleCount (l : List ActionableRecommendation) : ℕ :=
  (l.filter (fun r => !isZoneRule r.rule)).length

/-- Number of recommendations carrying a given rule tag. -/
def ruleTagCount (l : List ActionableRecommendation) (t : RuleTag) : ℕ :=
  (l.filter (fun r => decide (r.rule = t))).length

/-- The raw recommendation batch of a generator run, empty on error. -/
def rawOf (e : Except String RuleBasedData) : List ActionableRecommendation :=
  match e with
  | Except.ok d => d.rawRecommendations
  | Except.error _ => []

/-- Placeholder record used as the default of `List.headD`. -/
def defaultRec : ActionableRecommendation :=
  { priority := 0
    action := ""
    category := Category.Pricing
    confidence := Confidence.Low
    rule := RuleTag.UNIVERSAL_SERVICE
    reasoning := []
    expectedImpact := ""
    targets := none
    psychologicalPriceSuggestion := none }

/-- Metrics record with the given price index and percentile and neutral
remaining fields, used to instantiate zone-classifier theorems at the
documented boundary points. -/
def mkM (pi percentile : ℚ) : PricingMetrics :=
  { minMarketPrice := 0
    maxMarketPrice := 0
    medianMarketPrice := 0
    averageMarketPrice := 0
    priceSpreadPercent := 0
    merchantPrice := 0
    priceIndex := pi
    competitiveRank := 1
    totalRetailers := 1
    positionPercentile := percentile }

/-- Spec-side median, for the refinement part of the median claim.
Modelled from the spec: "Median: compute on the *competitor* list only
(not including merchant price) using the standard even/odd rule (average
of two middle elements when count is even, exact middle when odd), after
ascending sort."  Deliberately uses a different sorting routine
(`mergeSort`) than the embedding. -/
def medianSpec (l : List ℚ) : ℚ :=
  let s := l.mergeSort (fun a b => decide (a ≤ b))
  if s.length % 2 = 0 then
    (s.getD (s.length / 2 - 1) 0 + s.getD (s.length / 2) 0) / 2
  else
    s.getD (s.length / 2) 0

/-- JS number model for the degenerate empty-competitor-list path: a
finite value, `NaN`, or `undefined` (the result of an out-of-range array
read).  `Infinity` is not modelled because no operation on the analyzed
inputs produces it. -/
inductive JNum where
  | num (q : ℚ)
  | nan
  | undef
deriving DecidableEq, Repr

/-- JS `+` on numbers: any non-finite operand (NaN, or `undefined`
coerced to NaN) yields NaN. -/
def jAdd : JNum → JNum → JNum
  | JNum.num a, JNum.num b => JNum.num (a + b)
  | _, _ => JNum.nan

/-- JS `-` on numbers, with the same NaN propagation. -/
def jSub : JNum → JNum → JNum
  | JNum.num a, JNum.num b => JNum.num (a - b)
  | _, _ => JNum.nan

/-- JS `*` on numbers, with the same NaN propagation. -/
def jMul : JNum → JNum → JNum
  | JNum.num a, JNum.num b => JNum.num (a * b)
  | _, _ => JNum.nan

/-- JS `/` on numbers.  `0 / 0` is NaN; a non-zero numerator over zero
would be an Infinity, which no analyzed input reaches, so that case is
also mapped to the non-finite marker. -/
def jDiv : JNum → JNum → JNum
  | JNum.num a, JNum.num b => if b = 0 then JNum.nan else JNum.num (a / b)
  | _, _ => JNum.nan

/-- JS `<`: comparisons against NaN or `undefined` are false. -/
def jLtB : JNum → JNum → Bool
  | JNum.num a, JNum.num b => decide (a < b)
  | _, _ => false

/-- JS `<=`: comparisons against NaN or `undefined` are false. -/
def jLeB : JNum → JNum → Bool
  | JNum.num a, JNum.num b => decide (a ≤ b)
  | _, _ => false

/-- JS array read `l[i]` with a possibly out-of-range (even negative)
index: `undefined` when out of range. -/
def jsIndex (l : List ℚ) (i : ℤ) : JNum :=
  if 0 ≤ i ∧ i < (l.length : ℤ) then JNum.num (l.getD i.toNat 0) else JNum.undef

/-- `PricingMetrics` over the JS number model. -/
structure PricingMetricsJ where
  minMarketPrice : JNum
  maxMarketPrice : JNum
  medianMarketPrice : JNum
  averageMarketPrice : JNum
  priceSpreadPercent : JNum
  merchantPrice : ℚ
  priceIndex : JNum
  competitiveRank : ℕ
  totalRetailers : ℕ
  positionPercentile : ℚ
deriving DecidableEq, Repr

/-- `calculatePricingMetrics` re-read over the JS number model, exercising
the out-of-range reads and NaN propagation that an empty competitor list
triggers (`sortedPrices[0]` and `sortedPrices[-1]` are `undefined`, the
median is NaN, and the spread and index inherit NaN). -/
def calculatePricingMetricsJ (prices : List ℚ) (merchantPrice : ℚ) : PricingMetricsJ :=
  let sortedPrices := sortAsc prices
  let n : ℤ := (sortedPrices.length : ℤ)
  let minP := jsIndex sortedPrices 0
  let maxP := jsIndex sortedPrices (n - 1)
  let medianP :=
    if sortedPrices.length % 2 = 0 then
      jDiv (jAdd (jsIndex sortedPrices (n / 2 - 1)) (jsIndex sortedPrices (n / 2)))
        (JNum.num 2)
    else
      jsIndex sortedPrices (n / 2)
  let average := jDiv (JNum.num (prices.foldl (· + ·) 0)) (JNum.num (prices.length : ℚ))
  let priceSpread := jMul (jDiv (jSub maxP minP) medianP) (JNum.num 100)
  let priceIdx := jMul (jDiv (JNum.num merchantPrice) medianP) (JNum.num 100)
  let allPrices := sortAsc (prices ++ [merchantPrice])
  let rank := indexOfQ allPrices merchantPrice + 1
  let positionPercentile := ((rank : ℚ) / (allPrices.length : ℚ)) * 100
  { minMarketPrice := minP
    maxMarketPrice := maxP
    medianMarketPrice := medianP
    averageMarketPrice := average
    priceSpreadPercent := priceSpread
    merchantPrice := merchantPrice
    priceIndex := priceIdx
    competitiveRank := rank
    totalRetailers := allPrices.length
    positionPercentile := positionPercentile }

/-- `determinePricingZone` re-read over the JS number model: every
comparison against a NaN metric is false, so a NaN price index falls
through to the Underpriced/Moderate branch. -/
def determinePricingZoneJ (metrics : PricingMetricsJ) : PricingZone :=
  let confidence :=
    if 6 ≤ metrics.totalRetailers ∧ jLtB metrics.priceSpreadPercent (JNum.num 10) then
      Confidence.High
    else if metrics.totalRetailers ≤ 3 ∨ jLtB (JNum.num 20) metrics.priceSpreadPercent then
      Confidence.Low
    else
      Confidence.Medium
  if jLtB (JNum.num 108) metrics.priceIndex then
    { zone := Zone.Overpriced
      severity :=
        if jLtB (JNum.num 130) metrics.priceIndex then Severity.Critical else Severity.Moderate
      confidence := confidence }
  else if jLeB (JNum.num 95) metrics.priceIndex ∧ jLeB metrics.priceIndex (JNum.num 108) then
    { zone := Zone.MarketAligned
      severity := Severity.Optimal
      confidence := confidence }
  else
    { zone := Zone.Underpriced
      severity :=
        if jLtB metrics.priceIndex (JNum.num 50) then Severity.Critical else Severity.Moderate
      confidence := confidence }

/-- JS `x.toLocaleString()`: a string for a number (including `"NaN"` for
NaN), but a thrown `TypeError` when `x` is `undefined`. -/
def jsToLocaleString : JNum → Except String String
  | JNum.num q => Except.ok (toString q)
  | JNum.nan => Except.ok "NaN"
  | JNum.undef =>
      Except.error "TypeError: cannot read properties of undefined (reading toLocaleString)"

/-- The `marketSnapshot` block of `analyzeMarketStrategy` (part_002 lines
787-793): formats min, max, median and merchant price, in source order.
The first formatting call that hits an `undefined` metric throws. -/
def marketSnapshotJ (metrics : PricingMetricsJ) : Except String (List String) := do
  let lowest ← jsToLocaleString metrics.minMarketPrice
  let highest ← jsToLocaleString metrics.maxMarketPrice
  let median ← jsToLocaleString metrics.medianMarketPrice
  let merchant ← jsToLocaleString (JNum.num metrics.merchantPrice)
  pure ["₹" ++ lowest, "₹" ++ highest, "₹" ++ median, "₹" ++ merchant]

/-- Feedback payload with every array field present, used to instantiate
theorems with hypotheses. -/
def cfEx : CustomerFeedbackResponse :=
  { marketAnalysis :=
    { generalOpinion :=
      { overallSentiment := "Positive"
        strengths := some ["great battery", "sturdy build"]
        commonComplaints := some ["dim display"]
        targetAudience := "Office Workers" }
      customerNeeds :=
      { missingFeatures := some ["wireless charging"]
        dealBreakers := some ["poor hinge"] } } }

/-- Feedback payload whose array fields are all present but empty. -/
def cfEmptyArrays : CustomerFeedbackResponse :=
  { marketAnalysis :=
    { generalOpinion :=
      { overallSentiment := "Positive"
        strengths := some []
        commonComplaints := some []
        targetAudience := "Office Workers" }
      customerNeeds :=
      { missingFeatures := some []
        dealBreakers := some [] } } }

/-- Feedback payload whose `dealBreakers` array field is dynamically
missing. -/
def cfNoDB : CustomerFeedbackResponse :=
  { marketAnalysis :=
    { generalOpinion :=
      { overallSentiment := "Positive"
        strengths := some ["great battery"]
        commonComplaints := some ["dim display"]
        targetAudience := "Office Workers" }
      customerNeeds :=
      { missingFeatures := some ["wireless charging"]
        dealBreakers := none } } }

/-- Metrics record with the given merchant price and neutral remaining
fields, used to instantiate merchant-price-only theorems. -/
def mkMerchant (m : ℚ) : PricingMetrics :=
  { minMarketPrice := 0
    maxMarketPrice := 0
    medianMarketPrice := 0
    averageMarketPrice := 0
    priceSpreadPercent := 0
    merchantPrice := m
    priceIndex := 0
    competitiveRank := 1
    totalRetailers := 1
    positionPercentile := 0 }

lemma sortAsc_perm_eq {l l' : List ℚ} (h : l.Perm l') : sortAsc l = sortAsc l' :=
  List.eq_of_perm_of_sorted
    ((List.perm_insertionSort _ l).trans (h.trans (List.perm_insertionSort _ l').symm))
    (List.sorted_insertionSort _ l) (List.sorted_insertionSort _ l')

lemma indexOfQ_getD_self {l : List ℚ} {x : ℚ} (h : x ∈ l) :
    l.getD (indexOfQ l x) 0 = x := by
  induction l with
  | nil => cases h
  | cons a t ih =>
      by_cases hax : a = x
      · simp [indexOfQ, hax]
      · rcases List.mem_cons.mp h with h' | h'
        · exact absurd h'.symm hax
        · simp only [indexOfQ, if_neg hax, List.getD_cons_succ]
          exact ih h'

lemma indexOfQ_getD_ne {l : List ℚ} {x : ℚ} :
    ∀ j < indexOfQ l x, l.getD j 0 ≠ x := by
  induction l with
  | nil => intro j hj; simp [indexOfQ] at hj
  | cons a t ih =>
      intro j hj
      by_cases hax : a = x
      · simp [indexOfQ, hax] at hj
      · simp only [indexOfQ, hax, if_false] at hj
        cases j with
        | zero => simpa using hax
        | succ j' => simpa using ih j' (by omega)

/-- Claim C1: the part_002 zone classifier is a total three-band partition
of the price index: Overpriced exactly above 108 (Critical exactly above
130), Market-Aligned/Optimal exactly on [95, 108], Underpriced exactly
below 95 (Critical exactly below 50); the boundary points 108, 95, 130
and 50 fall on the documented sides. -/
theorem C1_zone_partition (m : PricingMetrics) :
    ((determinePricingZone m).zone = Zone.Overpriced ↔ 108 < m.priceIndex) ∧
    ((determinePricingZone m).zone = Zone.MarketAligned ↔
      95 ≤ m.priceIndex ∧ m.priceIndex ≤ 108) ∧
    ((determinePricingZone m).zone = Zone.Underpriced ↔ m.priceIndex < 95) ∧
    (130 < m.priceIndex → (determinePricingZone m).severity = Severity.Critical) ∧
    (108 < m.priceIndex → m.priceIndex ≤ 130 →
      (determinePricingZone m).severity = Severity.Moderate) ∧
    (95 ≤ m.priceIndex → m.priceIndex ≤ 108 →
      (determinePricingZone m).severity = Severity.Optimal) ∧
    (m.priceIndex < 50 → (determinePricingZone m).severity = Severity.Critical) ∧
    (50 ≤ m.priceIndex → m.priceIndex < 95 →
      (determinePricingZone m).severity = Severity.Moderate) ∧
    (determinePricingZone (mkM 108 0)).zone = Zone.MarketAligned ∧
    (determinePricingZone (mkM 95 0)).zone = Zone.MarketAligned ∧
    (determinePricingZone (mkM 130 0)).zone = Zone.Overpriced ∧
    (determinePricingZone (mkM 130 0)).severity = Severity.Moderate ∧
    (determinePricingZone (mkM 50 0)).zone = Zone.Underpriced ∧
    (determinePricingZone (mkM 50 0)).severity = Severity.Moderate := by
  unfold determinePricingZone
  refine ⟨?_, ?_, ?_, ?_, ?_, ?_, ?_, ?_, by decide, by decide, by decide, by decide,
    by decide, by decide⟩ <;>
    split_ifs <;> simp_all <;> first | linarith | (intro h; linarith)

/-- Witness for C1 at concrete boundary-adjacent metrics. -/
theorem C1_zone_partition_witness :
    (determinePricingZone (mkM 135 0)).zone = Zone.Overpriced ∧
    (determinePricingZone (mkM 135 0)).severity = Severity.Critical ∧
    (determinePricingZone (mkM 100 0)).severity = Severity.Optimal ∧
    (determinePricingZone (mkM 40 0)).severity = Severity.Critical :=
  ⟨(C1_zone_partition (mkM 135 0)).1.mpr (by norm_num [mkM]),
   (C1_zone_partition (mkM 135 0)).2.2.2.1 (by norm_num [mkM]),
   (C1_zone_partition (mkM 100 0)).2.2.2.2.2.1 (by norm_num [mkM]) (by norm_num [mkM]),
   (C1_zone_partition (mkM 40 0)).2.2.2.2.2.2.1 (by norm_num [mkM])⟩

/-- Claim C10: the older part_001 zone classifier, imported by the CLI
entry point, sends a price index above 108 with position percentile at
most 75 to the Underpriced zone, with severity Moderate (the price index
being at least 90). -/
theorem C10_v1_overpriced_index_low_percentile_is_underpriced (m : PricingMetrics)
    (hpi : 108 < m.priceIndex) (hpp : m.positionPercentile ≤ 75) :
    (determinePricingZoneV1 m).zone = Zone.Underpriced ∧
    (90 ≤ m.priceIndex → (determinePricingZoneV1 m).severity = Severity.Moderate) := by
  unfold determinePricingZoneV1
  split_ifs <;> simp_all <;> linarith

/-- Witness for C10 at price index 120 and percentile 50. -/
theorem C10_witness :
    (determinePricingZoneV1 (mkM 120 50)).zone = Zone.Underpriced ∧
    (90 ≤ (mkM 120 50).priceIndex →
      (determinePricingZoneV1 (mkM 120 50)).severity = Severity.Moderate) :=
  C10_v1_overpriced_index_low_percentile_is_underpriced (mkM 120 50)
    (by norm_num [mkM]) (by norm_num [mkM])

/-- Claim C3 (code bug evidence): on an empty competitor list the core
does not reject the input; it computes a NaN median and price index, an
undefined minimum price, classifies the NaN metrics as
Underpriced/Moderate, and only fails later with an incidental TypeError
when the result snapshot formats the undefined minimum. -/
theorem C3_empty_list_not_rejected :
    (calculatePricingMetricsJ [] 5000).medianMarketPrice = JNum.nan ∧
    (calculatePricingMetricsJ [] 5000).priceIndex = JNum.nan ∧
    (calculatePricingMetricsJ [] 5000).minMarketPrice = JNum.undef ∧
    determinePricingZoneJ (calculatePricingMetricsJ [] 5000) =
      { zone := Zone.Underpriced, severity := Severity.Moderate, confidence := Confidence.Low } ∧
    marketSnapshotJ (calculatePricingMetricsJ [] 5000) =
      Except.error
        "TypeError: cannot read properties of undefined (reading toLocaleString)" := by
  refine ⟨rfl, rfl, rfl, rfl, rfl⟩

/-- Claim C7: the psychological price rounder equals
`floor(price/1000)*1000 + 999`, never exceeds `price + 999`, and is
idempotent. -/
theorem C7_psychological_pricing_contract (price : ℚ) :
    applyPsychologicalPricing price = (⌊price / 1000⌋ : ℚ) * 1000 + 999 ∧
    applyPsychologicalPricing price ≤ price + 999 ∧
    applyPsychologicalPricing (applyPsychologicalPricing price) =
      applyPsychologicalPricing price := by
  refine ⟨rfl, ?_, ?_⟩
  · have h := Int.floor_le (price / 1000)
    unfold applyPsychologicalPricing
    simp only
    linarith
  · unfold applyPsychologicalPricing
    simp only
    have h : ((⌊price / 1000⌋ : ℚ) * 1000 + 999) / 1000 = (⌊price / 1000⌋ : ℚ) + 999 / 1000 := by
      ring
    rw [h]
    have h0 : ⌊(999 / 1000 : ℚ)⌋ = 0 := by
      rw [Int.floor_eq_zero_iff]
      constructor <;> norm_num
    rw [Int.floor_int_add, h0, add_zero]

lemma round_price_mult100 {m : ℚ} (h : isRoundPrice m) : ∃ k : ℤ, m = 100 * k := by
  rcases h with h | h
  · refine ⟨10 * jsTrunc (m / 1000), ?_⟩
    unfold jsMod at h
    push_cast
    linarith
  · refine ⟨jsTrunc (m / 100), ?_⟩
    unfold jsMod at h
    linarith

lemma psych_gt_of_mult100 (k : ℤ) : 100 * (k : ℚ) < applyPsychologicalPricing (100 * k) := by
  unfold applyPsychologicalPricing
  simp only
  have hq : ((100 * (k : ℚ))) / 1000 = (k : ℚ) / 10 := by ring
  rw [hq]
  have hk : 10 * (k / 10) + k % 10 = k := Int.ediv_add_emod k 10
  have hr0 : (0 : ℤ) ≤ k % 10 := Int.emod_nonneg k (by norm_num)
  have hr10 : k % 10 < 10 := Int.emod_lt_of_pos k (by norm_num)
  have hfloor : ⌊(k : ℚ) / 10⌋ = k / 10 := by
    have hsplit : (k : ℚ) / 10 = ((k / 10 : ℤ) : ℚ) + ((k % 10 : ℤ) : ℚ) / 10 := by
      have hcast : (k : ℚ) = ((10 * (k / 10) + k % 10 : ℤ) : ℚ) := by exact_mod_cast hk.symm
      rw [hcast]
      push_cast
      ring
    rw [hsplit, Int.floor_int_add]
    have h0 : ⌊((k % 10 : ℤ) : ℚ) / 10⌋ = 0 := by
      rw [Int.floor_eq_zero_iff]
      constructor
      · positivity
      · rw [div_lt_one (by norm_num)]
        exact_mod_cast hr10
    rw [h0, add_zero]
  rw [hfloor]
  have hkq : (k : ℚ) = 10 * ((k / 10 : ℤ) : ℚ) + ((k % 10 : ℤ) : ℚ) := by
    exact_mod_cast hk.symm
  have hr9 : ((k % 10 : ℤ) : ℚ) ≤ 9 := by exact_mod_cast Int.lt_add_one_iff.mp hr10
  rw [hkq]
  linarith

/-- Claim C9: whenever the round-price universal rule fires, the attached
`psychologicalPriceSuggestion` proposes a strictly higher price than the
current one, so the perceived savings figure is strictly negative. -/
theorem C9_round_price_rule_raises_price (metrics : PricingMetrics)
    (cf : CustomerFeedbackResponse) (h : isRoundPrice metrics.merchantPrice) :
    (psychologicalRec metrics cf).psychologicalPriceSuggestion =
      some { currentPrice := metrics.merchantPrice
             suggestedPrice := applyPsychologicalPricing metrics.merchantPrice
             savingsPerception :=
               metrics.merchantPrice - applyPsychologicalPricing metrics.merchantPrice } ∧
    metrics.merchantPrice < applyPsychologicalPricing metrics.merchantPrice ∧
    metrics.merchantPrice - applyPsychologicalPricing metrics.merchantPrice < 0 := by
  obtain ⟨k, hk⟩ := round_price_mult100 h
  have hgt : metrics.merchantPrice < applyPsychologicalPricing metrics.merchantPrice := by
    rw [hk]
    exact psych_gt_of_mult100 k
  exact ⟨rfl, hgt, by linarith⟩

/-- Witness for C9 at the round merchant price 11000, whose charm price
is 11999 and perceived savings -999. -/
theorem C9_witness :
    isRoundPrice (11000 : ℚ) ∧
    applyPsychologicalPricing 11000 = 11999 ∧
    (mkMerchant 11000).merchantPrice <
      applyPsychologicalPricing (mkMerchant 11000).merchantPrice ∧
    (mkMerchant 11000).merchantPrice -
      applyPsychologicalPricing (mkMerchant 11000).merchantPrice < 0 := by
  have hr : isRoundPrice (mkMerchant 11000).merchantPrice := by
    simp only [mkMerchant]
    unfold isRoundPrice jsMod jsTrunc
    left
    norm_num
  have h := C9_round_price_rule_raises_price (mkMerchant 11000) cfEx hr
  refine ⟨by simpa [mkMerchant] using hr, ?_, h.2.1, h.2.2⟩
  unfold applyPsychologicalPricing
  norm_num

lemma mergeSort_eq_sortAsc (l : List ℚ) :
    l.mergeSort (fun a b => decide (a ≤ b)) = sortAsc l := by
  have h := List.mergeSort_eq_insertionSort (α := ℚ) (r := (· ≤ ·)) l
  simpa [sortAsc] using h

/-- Claim C2: the median is computed from the competitor list alone with
the standard even/odd rule after ascending sort (hence permutation- and
merchant-independent, and matching the spec-side `medianSpec`), the index
and spread formulas hold exactly, and a merchant price equal to a nonzero
median yields price index exactly 100; the hand-computed vectors
`[100,200,300] -> 200` and `[100,200,300,400] -> 250` check out. -/
theorem C2_median_and_formulas (prices prices' : List ℚ) (merchant merchant' : ℚ)
    (hne : prices ≠ []) (hperm : prices.Perm prices') :
    (calculatePricingMetrics prices merchant).medianMarketPrice = medianSpec prices ∧
    (calculatePricingMetrics prices merchant).medianMarketPrice =
      (calculatePricingMetrics prices' merchant').medianMarketPrice ∧
    (calculatePricingMetrics prices merchant).priceIndex =
      merchant / (calculatePricingMetrics prices merchant).medianMarketPrice * 100 ∧
    (calculatePricingMetrics prices merchant).priceSpreadPercent =
      ((calculatePricingMetrics prices merchant).maxMarketPrice -
        (calculatePricingMetrics prices merchant).minMarketPrice) /
        (calculatePricingMetrics prices merchant).medianMarketPrice * 100 ∧
    (merchant = (calculatePricingMetrics prices merchant).medianMarketPrice →
      (calculatePricingMetrics prices merchant).medianMarketPrice ≠ 0 →
      (calculatePricingMetrics prices merchant).priceIndex = 100) ∧
    (calculatePricingMetrics [100, 200, 300] merchant).medianMarketPrice = 200 ∧
    (calculatePricingMetrics [100, 200, 300, 400] merchant).medianMarketPrice = 250 := by
  have hspec : (calculatePricingMetrics prices merchant).medianMarketPrice =
      medianSpec prices := by
    unfold medianSpec
    rw [mergeSort_eq_sortAsc]
    rfl
  refine ⟨hspec, ?_, rfl, rfl, ?_, by with_unfolding_all rfl, by with_unfolding_all rfl⟩
  · have hs : sortAsc prices = sortAsc prices' := sortAsc_perm_eq hperm
    simp only [calculatePricingMetrics]
    rw [hs]
  · intro h1 h2
    set d := (calculatePricingMetrics prices merchant).medianMarketPrice with hd
    have hpi : (calculatePricingMetrics prices merchant).priceIndex =
        merchant / d * 100 := rfl
    rw [hpi, h1, div_self h2, one_mul]

/-- Witness for C2 on the lists `[100,200,300]` and its permutation
`[300,100,200]`. -/
theorem C2_witness :
    (calculatePricingMetrics [100, 200, 300] 200).medianMarketPrice =
      medianSpec [100, 200, 300] ∧
    (calculatePricingMetrics [100, 200, 300] 200).medianMarketPrice =
      (calculatePricingMetrics [300, 100, 200] 7).medianMarketPrice ∧
    (calculatePricingMetrics [100, 200, 300] 200).priceIndex =
      200 / (calculatePricingMetrics [100, 200, 300] 200).medianMarketPrice * 100 ∧
    (200 = (calculatePricingMetrics [100, 200, 300] 200).medianMarketPrice →
      (calculatePricingMetrics [100, 200, 300] 200).medianMarketPrice ≠ 0 →
      (calculatePricingMetrics [100, 200, 300] 200).priceIndex = 100) := by
  have h := C2_median_and_formulas [100, 200, 300] [300, 100, 200] 200 7
    (by decide) (by decide)
  exact ⟨h.1, h.2.1, h.2.2.1, h.2.2.2.2.1⟩

/-- Claim C8: the competitive rank is invariant under permutations of the
competitor list, and equals one plus the first (lowest) index whose value
equals the merchant price in the ascending sort of competitors plus
merchant. -/
theorem C8_rank_permutation_invariant (prices prices' : List ℚ) (merchant : ℚ)
    (hperm : prices.Perm prices') :
    (calculatePricingMetrics prices merchant).competitiveRank =
      (calculatePricingMetrics prices' merchant).competitiveRank ∧
    (calculatePricingMetrics prices merchant).competitiveRank =
      indexOfQ (sortAsc (prices ++ [merchant])) merchant + 1 ∧
    (sortAsc (prices ++ [merchant])).getD
      (indexOfQ (sortAsc (prices ++ [merchant])) merchant) 0 = merchant ∧
    ∀ j < indexOfQ (sortAsc (prices ++ [merchant])) merchant,
      (sortAsc (prices ++ [merchant])).getD j 0 ≠ merchant := by
  have hmem : merchant ∈ sortAsc (prices ++ [merchant]) := by
    have hm : merchant ∈ prices ++ [merchant] := by simp
    unfold sortAsc
    exact ((List.perm_insertionSort _ _).mem_iff).mpr hm
  refine ⟨?_, rfl, indexOfQ_getD_self hmem, indexOfQ_getD_ne⟩
  have hs : sortAsc (prices ++ [merchant]) = sortAsc (prices' ++ [merchant]) :=
    sortAsc_perm_eq (hperm.append_right [merchant])
  simp only [calculatePricingMetrics]
  rw [hs]

/-- Witness for C8: `[200,100,300]` against its permutation
`[300,200,100]` with merchant price 200 (a tie with a competitor). -/
theorem C8_witness :
    (calculatePricingMetrics [200, 100, 300] 200).competitiveRank =
      (calculatePricingMetrics [300, 200, 100] 200).competitiveRank ∧
    (calculatePricingMetrics [200, 100, 300] 200).competitiveRank =
      indexOfQ (sortAsc ([200, 100, 300] ++ [200])) 200 + 1 ∧
    (sortAsc ([200, 100, 300] ++ [200])).getD
      (indexOfQ (sortAsc ([200, 100, 300] ++ [200])) 200) 0 = 200 ∧
    ∀ j < indexOfQ (sortAsc ([200, 100, 300] ++ [200])) 200,
      (sortAsc ([200, 100, 300] ++ [200])).getD j 0 ≠ 200 :=
  C8_rank_permutation_invariant [200, 100, 300] [300, 200, 100] 200 (by decide)

/-- The zone-dispatch part of a successful generator run. -/
def zoneBranchRecs (metrics : PricingMetrics) (zone : PricingZone)
    (cf : CustomerFeedbackResponse) (cc : List String) : List ActionableRecommendation :=
  match zone.zone with
  | Zone.Overpriced =>
      overpricedRecs metrics zone cf (metrics.merchantPrice - metrics.medianMarketPrice)
        (fmtQ (((metrics.merchantPrice - metrics.medianMarketPrice) /
          metrics.medianMarketPrice) * 100))
  | Zone.MarketAligned => alignedRecs metrics zone cc
  | Zone.Underpriced => underpricedRecs metrics zone cf

/-- The raw recommendation list of a successful generator run, as a pure
function of the dereferenced feedback arrays. -/
def genRecsOk (metrics : PricingMetrics) (zone : PricingZone)
    (cf : CustomerFeedbackResponse) (db mf st cc : List String) :
    List ActionableRecommendation :=
  zoneBranchRecs metrics zone cf cc ++
  (if 0 < db.length then [dealBreakersRec cf db mf] else []) ++
  (if 0 < st.length then [strengthsRec st] else []) ++
  [serviceRec cf] ++
  (if isRoundPrice metrics.merchantPrice then [psychologicalRec metrics cf] else [])

/-- The auxiliary metrics block of a successful generator run. -/
def genMetricsOut (metrics : PricingMetrics) : RuleBasedMetrics :=
  { priceIndex := metrics.priceIndex
    rank := toString metrics.competitiveRank ++ " of " ++ toString metrics.totalRetailers
    priceDiff := metrics.merchantPrice - metrics.medianMarketPrice
    priceDiffPercent :=
      fmtQ (((metrics.merchantPrice - metrics.medianMarketPrice) /
        metrics.medianMarketPrice) * 100) }

lemma gen_eq_ok (metrics : PricingMetrics) (zone : PricingZone)
    (cf : CustomerFeedbackResponse) (db mf st cc : List String)
    (hdb : cf.marketAnalysis.customerNeeds.dealBreakers = some db)
    (hmf : cf.marketAnalysis.customerNeeds.missingFeatures = some mf)
    (hst : cf.marketAnalysis.generalOpinion.strengths = some st)
    (hcc : cf.marketAnalysis.generalOpinion.commonComplaints = some cc) :
    generateRuleBasedRecommendations metrics zone cf =
      Except.ok { rawRecommendations := genRecsOk metrics zone cf db mf st cc
                  metrics := genMetricsOut metrics } := by
  unfold generateRuleBasedRecommendations genRecsOk zoneBranchRecs genMetricsOut
  rw [hdb, hmf, hst, hcc]
  cases hz : zone.zone <;>
    simp only [hz, getArr, Bind.bind, Except.bind, Pure.pure, Except.pure] <;>
    split_ifs <;>
    rfl

lemma zoneRuleCount_append (l₁ l₂ : List ActionableRecommendation) :
    zoneRuleCount (l₁ ++ l₂) = zoneRuleCount l₁ + zoneRuleCount l₂ := by
  simp [zoneRuleCount]

lemma univRuleCount_append (l₁ l₂ : List ActionableRecommendation) :
    univRuleCount (l₁ ++ l₂) = univRuleCount l₁ + univRuleCount l₂ := by
  simp [univRuleCount]

lemma ruleTagCount_append (l₁ l₂ : List ActionableRecommendation) (t : RuleTag) :
    ruleTagCount (l₁ ++ l₂) t = ruleTagCount l₁ t + ruleTagCount l₂ t := by
  simp [ruleTagCount]

lemma overpriced_all_zone (m : PricingMetrics) (z : PricingZone)
    (cf : CustomerFeedbackResponse) (pd : ℚ) (pdp : String) :
    ∀ r ∈ overpricedRecs m z cf pd pdp, isZoneRule r.rule = true := by
  unfold overpricedRecs
  split_ifs <;> simp [List.forall_mem_cons, isZoneRule]

lemma aligned_all_zone (m : PricingMetrics) (z : PricingZone) (cc : List String) :
    ∀ r ∈ alignedRecs m z cc, isZoneRule r.rule = true := by
  simp [alignedRecs, List.forall_mem_cons, isZoneRule]

lemma underpriced_all_zone (m : PricingMetrics) (z : PricingZone)
    (cf : CustomerFeedbackResponse) :
    ∀ r ∈ underpricedRecs m z cf, isZoneRule r.rule = true := by
  unfold underpricedRecs
  split_ifs <;> simp [List.forall_mem_cons, isZoneRule]

lemma zoneBranch_all_zone (m : PricingMetrics) (z : PricingZone)
    (cf : CustomerFeedbackResponse) (cc : List String) :
    ∀ r ∈ zoneBranchRecs m z cf cc, isZoneRule r.rule = true := by
  unfold zoneBranchRecs
  cases z.zone
  · exact overpriced_all_zone m z cf _ _
  · exact aligned_all_zone m z cc
  · exact underpriced_all_zone m z cf

lemma ruleTagCount_eq_zero_of_zone {l : List ActionableRecommendation} {t : RuleTag}
    (hl : ∀ r ∈ l, isZoneRule r.rule = true) (ht : isZoneRule t = false) :
    ruleTagCount l t = 0 := by
  unfold ruleTagCount
  rw [List.length_eq_zero, List.filter_eq_nil]
  intro a ha
  simp only [decide_eq_true_eq]
  intro hEq
  have := hl a ha
  rw [hEq, ht] at this
  cases this

lemma univRuleCount_eq_zero_of_zone {l : List ActionableRecommendation}
    (hl : ∀ r ∈ l, isZoneRule r.rule = true) : univRuleCount l = 0 := by
  unfold univRuleCount
  rw [List.length_eq_zero, List.filter_eq_nil]
  intro a ha
  simp [hl a ha]

lemma zoneRuleCount_eq_length_of_zone {l : List ActionableRecommendation}
    (hl : ∀ r ∈ l, isZoneRule r.rule = true) : zoneRuleCount l = l.length := by
  unfold zoneRuleCount
  congr 1
  exact List.filter_eq_self.mpr (fun a ha => by simp [hl a ha])

lemma overpriced_length (m : PricingMetrics) (z : PricingZone)
    (cf : CustomerFeedbackResponse) (pd : ℚ) (pdp : String) :
    2 ≤ (overpricedRecs m z cf pd pdp).length := by
  unfold overpricedRecs
  split_ifs <;> simp

lemma aligned_length (m : PricingMetrics) (z : PricingZone) (cc : List String) :
    (alignedRecs m z cc).length = 2 := by
  simp [alignedRecs]

lemma underpriced_length_severe (m : PricingMetrics) (z : PricingZone)
    (cf : CustomerFeedbackResponse) (h : m.priceIndex < 50) :
    (underpricedRecs m z cf).length = 1 := by
  unfold underpricedRecs
  split_ifs <;> simp_all <;> linarith

lemma underpriced_length_nonsevere (m : PricingMetrics) (z : PricingZone)
    (cf : CustomerFeedbackResponse) (h : 50 ≤ m.priceIndex) :
    (underpricedRecs m z cf).length = 2 := by
  unfold underpricedRecs
  split_ifs <;> simp_all <;> linarith

lemma overpriced_reasoning (m : PricingMetrics) (z : PricingZone)
    (cf : CustomerFeedbackResponse) (pd : ℚ) (pdp : String) :
    ∀ r ∈ overpricedRecs m z cf pd pdp, r.reasoning ≠ [] := by
  unfold overpricedRecs
  split_ifs <;> simp [List.forall_mem_cons]

lemma aligned_reasoning (m : PricingMetrics) (z : PricingZone) (cc : List String) :
    ∀ r ∈ alignedRecs m z cc, r.reasoning ≠ [] := by
  simp [alignedRecs, List.forall_mem_cons]

lemma underpriced_reasoning (m : PricingMetrics) (z : PricingZone)
    (cf : CustomerFeedbackResponse) :
    ∀ r ∈ underpricedRecs m z cf, r.reasoning ≠ [] := by
  unfold underpricedRecs
  split_ifs <;> simp [List.forall_mem_cons]

lemma zoneBranch_reasoning (m : PricingMetrics) (z : PricingZone)
    (cf : CustomerFeedbackResponse) (cc : List String) :
    ∀ r ∈ zoneBranchRecs m z cf cc, r.reasoning ≠ [] := by
  unfold zoneBranchRecs
  cases z.zone
  · exact overpriced_reasoning _ _ _ _ _
  · exact aligned_reasoning _ _ _
  · exact underpriced_reasoning _ _ _

lemma genRecsOk_reasoning (metrics : PricingMetrics) (zone : PricingZone)
    (cf : CustomerFeedbackResponse) (db mf st cc : List String) :
    ∀ r ∈ genRecsOk metrics zone cf db mf st cc, r.reasoning ≠ [] := by
  unfold genRecsOk
  intro r hr
  simp only [List.mem_append] at hr
  rcases hr with ((((hr | hr) | hr) | hr) | hr)
  · exact zoneBranch_reasoning _ _ _ _ r hr
  · revert hr
    split_ifs <;> simp [dealBreakersRec] <;> rintro rfl <;> simp
  · revert hr
    split_ifs <;> simp [strengthsRec] <;> rintro rfl <;> simp
  · revert hr
    simp only [List.mem_singleton]
    rintro rfl
    simp [serviceRec]
  · revert hr
    split_ifs <;> simp [psychologicalRec] <;> rintro rfl <;> simp

/-- Claim C4 counterexample: with the `dealBreakers` array field missing
from the feedback payload, the generator does not skip the rule — the
dereference fails (the JS code throws a TypeError on
`dealBreakers.length`), so no recommendation batch is produced. -/
theorem C4_counterexample :
    generateRuleBasedRecommendations (mkM 120 50)
      { zone := Zone.Overpriced, severity := Severity.Moderate, confidence := Confidence.Medium }
      cfNoDB =
    Except.error "TypeError: cannot read properties of undefined" := rfl

/-- Claim C4 as amended: provided the array fields the generator
dereferences are present (`dealBreakers`, `missingFeatures`, `strengths`,
`commonComplaints`), it never fails, and a present-but-empty
`dealBreakers` or `strengths` array skips the corresponding conditional
universal rule; a missing array field instead raises a TypeError. -/
theorem C4_amended_no_throw (metrics : PricingMetrics) (zone : PricingZone)
    (cf : CustomerFeedbackResponse) (db mf st cc : List String)
    (hdb : cf.marketAnalysis.customerNeeds.dealBreakers = some db)
    (hmf : cf.marketAnalysis.customerNeeds.missingFeatures = some mf)
    (hst : cf.marketAnalysis.generalOpinion.strengths = some st)
    (hcc : cf.marketAnalysis.generalOpinion.commonComplaints = some cc) :
    (generateRuleBasedRecommendations metrics zone cf).isOk = true ∧
    (db = [] →
      ruleTagCount (rawOf (generateRuleBasedRecommendations metrics zone cf))
        RuleTag.UNIVERSAL_DEALBREAKERS = 0) ∧
    (st = [] →
      ruleTagCount (rawOf (generateRuleBasedRecommendations metrics zone cf))
        RuleTag.UNIVERSAL_STRENGTHS = 0) := by
  rw [gen_eq_ok metrics zone cf db mf st cc hdb hmf hst hcc]
  refine ⟨rfl, ?_, ?_⟩
  · rintro rfl
    show ruleTagCount (genRecsOk metrics zone cf [] mf st cc) RuleTag.UNIVERSAL_DEALBREAKERS = 0
    unfold genRecsOk
    rw [ruleTagCount_append, ruleTagCount_append, ruleTagCount_append, ruleTagCount_append,
      @ruleTagCount_eq_zero_of_zone _ RuleTag.UNIVERSAL_DEALBREAKERS
        (zoneBranch_all_zone metrics zone cf cc) rfl]
    split_ifs <;>
      simp_all [ruleTagCount, dealBreakersRec, strengthsRec, serviceRec, psychologicalRec]
  · rintro rfl
    show ruleTagCount (genRecsOk metrics zone cf db mf [] cc) RuleTag.UNIVERSAL_STRENGTHS = 0
    unfold genRecsOk
    rw [ruleTagCount_append, ruleTagCount_append, ruleTagCount_append, ruleTagCount_append,
      @ruleTagCount_eq_zero_of_zone _ RuleTag.UNIVERSAL_STRENGTHS
        (zoneBranch_all_zone metrics zone cf cc) rfl]
    split_ifs <;>
      simp_all [ruleTagCount, dealBreakersRec, strengthsRec, serviceRec, psychologicalRec]

/-- Witness for the amended C4 at concrete inputs with all arrays present
and empty. -/
theorem C4_witness :
    (generateRuleBasedRecommendations (mkM 120 50)
      { zone := Zone.Overpriced, severity := Severity.Moderate, confidence := Confidence.Medium }
      cfEmptyArrays).isOk = true ∧
    (([] : List String) = [] →
      ruleTagCount (rawOf (generateRuleBasedRecommendations (mkM 120 50)
        { zone := Zone.Overpriced, severity := Severity.Moderate,
          confidence := Confidence.Medium } cfEmptyArrays))
        RuleTag.UNIVERSAL_DEALBREAKERS = 0) ∧
    (([] : List String) = [] →
      ruleTagCount (rawOf (generateRuleBasedRecommendations (mkM 120 50)
        { zone := Zone.Overpriced, severity := Severity.Moderate,
          confidence := Confidence.Medium } cfEmptyArrays))
        RuleTag.UNIVERSAL_STRENGTHS = 0) :=
  C4_amended_no_throw (mkM 120 50)
    { zone := Zone.Overpriced, severity := Severity.Moderate, confidence := Confidence.Medium }
    cfEmptyArrays [] [] [] [] rfl rfl rfl rfl

lemma rawOf_ok (d : RuleBasedData) : rawOf (Except.ok d) = d.rawRecommendations := rfl

lemma zoneRuleCount_eq_zero_of_univ {l : List ActionableRecommendation}
    (hl : ∀ r ∈ l, isZoneRule r.rule = false) : zoneRuleCount l = 0 := by
  unfold zoneRuleCount
  rw [List.length_eq_zero, List.filter_eq_nil]
  intro a ha
  simp [hl a ha]

lemma count_if_singleton_zone (c : Prop) [Decidable c] (x : ActionableRecommendation)
    (hx : isZoneRule x.rule = false) :
    zoneRuleCount (if c then [x] else []) = 0 := by
  split_ifs <;> simp [zoneRuleCount, hx]

lemma count_if_singleton_univ (c : Prop) [Decidable c] (x : ActionableRecommendation)
    (hx : isZoneRule x.rule = false) :
    univRuleCount (if c then [x] else []) = if c then 1 else 0 := by
  split_ifs <;> simp [univRuleCount, hx]

lemma dealBreakersRec_not_zone (cf : CustomerFeedbackResponse) (db mf : List String) :
    isZoneRule (dealBreakersRec cf db mf).rule = false := rfl

lemma strengthsRec_not_zone (st : List String) :
    isZoneRule (strengthsRec st).rule = false := rfl

lemma serviceRec_not_zone (cf : CustomerFeedbackResponse) :
    isZoneRule (serviceRec cf).rule = false := rfl

lemma psychologicalRec_not_zone (m : PricingMetrics) (cf : CustomerFeedbackResponse) :
    isZoneRule (psychologicalRec m cf).rule = false := rfl

lemma genRecsOk_zoneCount (metrics : PricingMetrics) (zone : PricingZone)
    (cf : CustomerFeedbackResponse) (db mf st cc : List String) :
    zoneRuleCount (genRecsOk metrics zone cf db mf st cc) =
      (zoneBranchRecs metrics zone cf cc).length := by
  unfold genRecsOk
  rw [zoneRuleCount_append, zoneRuleCount_append, zoneRuleCount_append, zoneRuleCount_append,
    zoneRuleCount_eq_length_of_zone (zoneBranch_all_zone metrics zone cf cc),
    count_if_singleton_zone _ _ (dealBreakersRec_not_zone cf db mf),
    count_if_singleton_zone _ _ (strengthsRec_not_zone st),
    count_if_singleton_zone _ _ (psychologicalRec_not_zone metrics cf)]
  simp [zoneRuleCount, serviceRec, isZoneRule]

lemma genRecsOk_univCount (metrics : PricingMetrics) (zone : PricingZone)
    (cf : CustomerFeedbackResponse) (db mf st cc : List String) :
    1 ≤ univRuleCount (genRecsOk metrics zone cf db mf st cc) ∧
    univRuleCount (genRecsOk metrics zone cf db mf st cc) ≤ 4 := by
  unfold genRecsOk
  rw [univRuleCount_append, univRuleCount_append, univRuleCount_append, univRuleCount_append,
    univRuleCount_eq_zero_of_zone (zoneBranch_all_zone metrics zone cf cc),
    count_if_singleton_univ _ _ (dealBreakersRec_not_zone cf db mf),
    count_if_singleton_univ _ _ (strengthsRec_not_zone st),
    count_if_singleton_univ _ _ (psychologicalRec_not_zone metrics cf)]
  have hsvc : univRuleCount [serviceRec cf] = 1 := by
    simp [univRuleCount, serviceRec, isZoneRule]
  rw [hsvc]
  constructor <;> split_ifs <;> omega

/-- Claim C6 counterexample: in the severe Underpriced tier (price index
40, below 50), the zone-specific branch contributes exactly one
recommendation (the `UNDERPRICED_VOLUME` rule is gated on
`priceIndex >= 50`), and with empty feedback arrays and a non-round
merchant price the universal rules contribute two entries, not three or
four. -/
theorem C6_counterexample :
    determinePricingZone (mkM 40 50) =
      { zone := Zone.Underpriced, severity := Severity.Critical, confidence := Confidence.Low } ∧
    zoneRuleCount (rawOf (generateRuleBasedRecommendations (mkM 40 50)
      (determinePricingZone (mkM 40 50)) cfEmptyArrays)) = 1 ∧
    univRuleCount (rawOf (generateRuleBasedRecommendations (mkM 40 50)
      (determinePricingZone (mkM 40 50)) cfEmptyArrays)) = 2 := by
  have hz : determinePricingZone (mkM 40 50) =
      { zone := Zone.Underpriced, severity := Severity.Critical,
        confidence := Confidence.Low } := by decide
  have hround : isRoundPrice (mkM 40 50).merchantPrice := by
    simp only [mkM]
    unfold isRoundPrice jsMod jsTrunc
    left
    norm_num
  refine ⟨hz, ?_, ?_⟩
  · rw [gen_eq_ok (mkM 40 50) _ cfEmptyArrays [] [] [] [] rfl rfl rfl rfl, rawOf_ok,
      genRecsOk_zoneCount]
    rw [hz]
    show (underpricedRecs (mkM 40 50) _ cfEmptyArrays).length = 1
    exact underpriced_length_severe _ _ _ (by norm_num [mkM])
  · rw [gen_eq_ok (mkM 40 50) _ cfEmptyArrays [] [] [] [] rfl rfl rfl rfl, rawOf_ok]
    unfold genRecsOk
    rw [univRuleCount_append, univRuleCount_append, univRuleCount_append, univRuleCount_append,
      univRuleCount_eq_zero_of_zone (zoneBranch_all_zone _ _ _ _),
      count_if_singleton_univ _ _ (dealBreakersRec_not_zone cfEmptyArrays [] []),
      count_if_singleton_univ _ _ (strengthsRec_not_zone []),
      count_if_singleton_univ _ _ (psychologicalRec_not_zone (mkM 40 50) cfEmptyArrays),
      if_pos hround]
    have hsvc : univRuleCount [serviceRec cfEmptyArrays] = 1 := by
      simp [univRuleCount, serviceRec, isZoneRule]
    rw [hsvc]
    norm_num

/-- Claim C6 as amended: for a successful generator run (array fields
present) every entry has a non-empty reasoning list and the universal
rules contribute between 1 and 4 entries; the zone-specific branch
contributes at least 2 entries in every case except the severe
Underpriced tier (`priceIndex < 50`), where it contributes exactly 1. -/
theorem C6_amended_batch_shape (metrics : PricingMetrics) (zone : PricingZone)
    (cf : CustomerFeedbackResponse) (db mf st cc : List String)
    (hdb : cf.marketAnalysis.customerNeeds.dealBreakers = some db)
    (hmf : cf.marketAnalysis.customerNeeds.missingFeatures = some mf)
    (hst : cf.marketAnalysis.generalOpinion.strengths = some st)
    (hcc : cf.marketAnalysis.generalOpinion.commonComplaints = some cc) :
    (∀ r ∈ rawOf (generateRuleBasedRecommendations metrics zone cf), r.reasoning ≠ []) ∧
    (zone.zone = Zone.Underpriced → metrics.priceIndex < 50 →
      zoneRuleCount (rawOf (generateRuleBasedRecommendations metrics zone cf)) = 1) ∧
    (zone.zone = Zone.Underpriced → 50 ≤ metrics.priceIndex →
      zoneRuleCount (rawOf (generateRuleBasedRecommendations metrics zone cf)) = 2) ∧
    (zone.zone ≠ Zone.Underpriced →
      2 ≤ zoneRuleCount (rawOf (generateRuleBasedRecommendations metrics zone cf))) ∧
    1 ≤ univRuleCount (rawOf (generateRuleBasedRecommendations metrics zone cf)) ∧
    univRuleCount (rawOf (generateRuleBasedRecommendations metrics zone cf)) ≤ 4 := by
  rw [gen_eq_ok metrics zone cf db mf st cc hdb hmf hst hcc, rawOf_ok]
  refine ⟨genRecsOk_reasoning metrics zone cf db mf st cc, ?_, ?_, ?_,
    (genRecsOk_univCount metrics zone cf db mf st cc).1,
    (genRecsOk_univCount metrics zone cf db mf st cc).2⟩
  · intro hz hpi
    rw [genRecsOk_zoneCount]
    unfold zoneBranchRecs
    rw [hz]
    exact underpriced_length_severe _ _ _ hpi
  · intro hz hpi
    rw [genRecsOk_zoneCount]
    unfold zoneBranchRecs
    rw [hz]
    exact underpriced_length_nonsevere _ _ _ hpi
  · intro hz
    rw [genRecsOk_zoneCount]
    unfold zoneBranchRecs
    cases hzz : zone.zone
    · exact overpriced_length _ _ _ _ _
    · rw [aligned_length]
    · exact absurd hzz hz

/-- Witness for the amended C6 at a concrete Market-Aligned run. -/
theorem C6_witness :
    (∀ r ∈ rawOf (generateRuleBasedRecommendations (mkM 100 50)
      { zone := Zone.MarketAligned, severity := Severity.Optimal, confidence := Confidence.Medium }
      cfEx), r.reasoning ≠ []) ∧
    1 ≤ univRuleCount (rawOf (generateRuleBasedRecommendations (mkM 100 50)
      { zone := Zone.MarketAligned, severity := Severity.Optimal, confidence := Confidence.Medium }
      cfEx)) ∧
    2 ≤ zoneRuleCount (rawOf (generateRuleBasedRecommendations (mkM 100 50)
      { zone := Zone.MarketAligned, severity := Severity.Optimal, confidence := Confidence.Medium }
      cfEx)) := by
  have h := C6_amended_batch_shape (mkM 100 50)
    { zone := Zone.MarketAligned, severity := Severity.Optimal, confidence := Confidence.Medium }
    cfEx ["poor hinge"] ["wireless charging"] ["great battery", "sturdy build"] ["dim display"]
    rfl rfl rfl rfl
  exact ⟨h.1, h.2.2.2.2.1, h.2.2.2.1 (by intro hc; cases hc)⟩

lemma metricsC5_eq : calculatePricingMetrics [10999] 110000 =
    { minMarketPrice := 10999
      maxMarketPrice := 10999
      medianMarketPrice := 10999
      averageMarketPrice := 10999
      priceSpreadPercent := 0
      merchantPrice := 110000
      priceIndex := 11000000 / 10999
      competitiveRank := 2
      totalRetailers := 2
      positionPercentile := 100 } := by
  unfold calculatePricingMetrics sortAsc
  norm_num [List.insertionSort, List.orderedInsert, indexOfQ]

lemma zoneC5_eq : determinePricingZone (calculatePricingMetrics [10999] 110000) =
    { zone := Zone.Overpriced, severity := Severity.Critical,
      confidence := Confidence.Low } := by
  rw [metricsC5_eq]
  unfold determinePricingZone zoneConfidence
  norm_num

lemma floor_10999_div_1000 : ⌊(10999 : ℚ) / 1000⌋ = 10 := by
  rw [Int.floor_eq_iff]
  constructor <;> norm_num

/-- Claim C5 counterexample: for median 10999 and merchant price 110000
the zone is Overpriced/Critical, but the severe-tier target range is
9999..10999 (one charm level below the median charm price up to it) — not
the claimed psychological-price(median-1)..psychological-price(median+999)
range of 10999..11999. -/
theorem C5_counterexample :
    determinePricingZone (calculatePricingMetrics [10999] 110000) =
      { zone := Zone.Overpriced, severity := Severity.Critical,
        confidence := Confidence.Low } ∧
    ((rawOf (generateRuleBasedRecommendations (calculatePricingMetrics [10999] 110000)
        (determinePricingZone (calculatePricingMetrics [10999] 110000)) cfEx)).headD
      defaultRec).targets = some (9999, 10999) ∧
    applyPsychologicalPricing
      ((calculatePricingMetrics [10999] 110000).medianMarketPrice - 1) = 10999 ∧
    applyPsychologicalPricing
      ((calculatePricingMetrics [10999] 110000).medianMarketPrice + 999) = 11999 ∧
    ((9999 : ℚ), (10999 : ℚ)) ≠ ((10999 : ℚ), (11999 : ℚ)) := by
  refine ⟨zoneC5_eq, ?_, ?_, ?_, by simp⟩
  · rw [zoneC5_eq,
      gen_eq_ok _ _ cfEx ["poor hinge"] ["wireless charging"]
        ["great battery", "sturdy build"] ["dim display"] rfl rfl rfl rfl,
      rawOf_ok]
    simp only [genRecsOk, zoneBranchRecs]
    rw [metricsC5_eq]
    unfold overpricedRecs
    rw [if_pos (by norm_num)]
    simp only [List.cons_append, List.headD_cons]
    rw [floor_10999_div_1000]
    norm_num
  · rw [metricsC5_eq]
    unfold applyPsychologicalPricing
    simp only
    have h : ((10999 : ℚ) - 1) / 1000 = 10998 / 1000 := by norm_num
    rw [h, show ⌊(10998 : ℚ) / 1000⌋ = 10 by rw [Int.floor_eq_iff]; constructor <;> norm_num]
    norm_num
  · rw [metricsC5_eq]
    unfold applyPsychologicalPricing
    simp only
    have h : ((10999 : ℚ) + 999) / 1000 = 11998 / 1000 := by norm_num
    rw [h, show ⌊(11998 : ℚ) / 1000⌋ = 11 by rw [Int.floor_eq_iff]; constructor <;> norm_num]
    norm_num

/-- Claim C5 as amended: in the severe Overpriced tier the primary
recommendation is priority 1, category Pricing, confidence High, rule
`OVERPRICED_SEVERE`, and its target range is
`floor(median/1000)*1000 - 1 .. floor(median/1000)*1000 + 999`, i.e.
`applyPsychologicalPricing(median) - 1000` up to
`applyPsychologicalPricing(median)`, whose lower end is always strictly
below the median. -/
theorem C5_amended_severe_target (metrics : PricingMetrics) (zone : PricingZone)
    (cf : CustomerFeedbackResponse) (db mf st cc : List String)
    (hdb : cf.marketAnalysis.customerNeeds.dealBreakers = some db)
    (hmf : cf.marketAnalysis.customerNeeds.missingFeatures = some mf)
    (hst : cf.marketAnalysis.generalOpinion.strengths = some st)
    (hcc : cf.marketAnalysis.generalOpinion.commonComplaints = some cc)
    (hz : zone.zone = Zone.Overpriced) (hpi : 130 < metrics.priceIndex) :
    ((rawOf (generateRuleBasedRecommendations metrics zone cf)).headD
      defaultRec).priority = 1 ∧
    ((rawOf (generateRuleBasedRecommendations metrics zone cf)).headD
      defaultRec).category = Category.Pricing ∧
    ((rawOf (generateRuleBasedRecommendations metrics zone cf)).headD
      defaultRec).confidence = Confidence.High ∧
    ((rawOf (generateRuleBasedRecommendations metrics zone cf)).headD
      defaultRec).rule = RuleTag.OVERPRICED_SEVERE ∧
    ((rawOf (generateRuleBasedRecommendations metrics zone cf)).headD
      defaultRec).targets =
      some (applyPsychologicalPricing metrics.medianMarketPrice - 1000,
        applyPsychologicalPricing metrics.medianMarketPrice) ∧
    applyPsychologicalPricing metrics.medianMarketPrice - 1000 <
      metrics.medianMarketPrice := by
  rw [gen_eq_ok metrics zone cf db mf st cc hdb hmf hst hcc, rawOf_ok]
  simp only [genRecsOk, zoneBranchRecs, hz]
  unfold overpricedRecs
  rw [if_pos hpi]
  simp only [List.cons_append, List.headD_cons]
  refine ⟨?_, ?_, ?_, ?_, ?_, ?_⟩
  · first | trivial | rfl
  · first | trivial | rfl
  · first | trivial | rfl
  · first | trivial | rfl
  · unfold applyPsychologicalPricing
    simp only [Option.some.injEq, Prod.mk.injEq]
    constructor <;> ring
  · unfold applyPsychologicalPricing
    simp only
    have h := Int.floor_le (metrics.medianMarketPrice / 1000)
    linarith

/-- Witness for the amended C5 at the severe-overpricing scenario
(median 10999, merchant price 110000). -/
theorem C5_witness :
    ((rawOf (generateRuleBasedRecommendations (calculatePricingMetrics [10999] 110000)
        (determinePricingZone (calculatePricingMetrics [10999] 110000)) cfEx)).headD
      defaultRec).priority = 1 ∧
    ((rawOf (generateRuleBasedRecommendations (calculatePricingMetrics [10999] 110000)
        (determinePricingZone (calculatePricingMetrics [10999] 110000)) cfEx)).headD
      defaultRec).category = Category.Pricing ∧
    ((rawOf (generateRuleBasedRecommendations (calculatePricingMetrics [10999] 110000)
        (determinePricingZone (calculatePricingMetrics [10999] 110000)) cfEx)).headD
      defaultRec).confidence = Confidence.High ∧
    ((rawOf (generateRuleBasedRecommendations (calculatePricingMetrics [10999] 110000)
        (determinePricingZone (calculatePricingMetrics [10999] 110000)) cfEx)).headD
      defaultRec).rule = RuleTag.OVERPRICED_SEVERE ∧
    ((rawOf (generateRuleBasedRecommendations (calculatePricingMetrics [10999] 110000)
        (determinePricingZone (calculatePricingMetrics [10999] 110000)) cfEx)).headD
      defaultRec).targets =
      some (applyPsychologicalPricing
          (calculatePricingMetrics [10999] 110000).medianMarketPrice - 1000,
        applyPsychologicalPricing
          (calculatePricingMetrics [10999] 110000).medianMarketPrice) ∧
    applyPsychologicalPricing
        (calculatePricingMetrics [10999] 110000).medianMarketPrice - 1000 <
      (calculatePricingMetrics [10999] 110000).medianMarketPrice :=
  C5_amended_severe_target (calculatePricingMetrics [10999] 110000)
    (determinePricingZone (calculatePricingMetrics [10999] 110000)) cfEx
    ["poor hinge"] ["wireless charging"] ["great battery", "sturdy build"] ["dim display"]
    rfl rfl rfl rfl (by rw [zoneC5_eq]) (by rw [metricsC5_eq]; norm_num)

end Kubera
